import Mathlib

/-!
Verification of the bounded-buffer producer/consumer repository.

Two engines are embedded from the source:

* the in-process `SharedBuffer` (semaphore-based, `insert`/`remove` with
  timeouts at each semaphore gate), from the `SharedBuffer` class of
  `buffer_server.py` (the consumer-producer section);
* the networked `SharedBufferServer` (fail-fast `produce`/`consume`
  request handlers guarded by one lock), from the `SharedBufferServer`
  class of `buffer_server.py`;
* the retry loops of `producer_client.py` and `consumer_client.py`.

Timeouts of semaphore acquisitions are nondeterministic under
concurrency, so each gate's outcome is an explicit parameter
(`GateOutcome`); a successful acquisition additionally requires the
semaphore's counter to be positive, exactly as `threading.Semaphore`
behaves.  `queue.Queue.put` on a full queue and `queue.Queue.get` on an
empty queue block forever (no timeout is passed in the source), so those
paths yield `none`: the call never completes.
-/

namespace BufferRepo

/-- Outcome chosen by the scheduler for one semaphore acquisition:
either the acquire call returns within the timeout, or it times out. -/
inductive GateOutcome where
  | ok
  | timeout
deriving DecidableEq, Repr

/-- Embedding of `queue.Queue.full`: a queue with `maxsize <= 0` is unbounded and never
full; otherwise it is full when the size has reached `maxsize`. -/
def queueFull (maxsize len : Nat) : Bool :=
  0 < maxsize && maxsize ≤ len

/-- State of the `SharedBuffer` class: the FIFO queue, the three
semaphore counters (`mutex`, `empty`, `full`) and the two statistics
counters, with the construction-time capacity. -/
structure SharedBuffer where
  capacity : Nat
  buffer : List Int
  mutex : Nat
  empty : Nat
  full : Nat
  produced_count : Nat
  consumed_count : Nat
deriving DecidableEq, Repr

namespace SharedBuffer

/-- Embedding of `SharedBuffer.__init__(size)`: empty queue of capacity `size`,
`mutex = Semaphore(1)`, `empty = Semaphore(size)`, `full = Semaphore(0)`,
both statistics counters zero. -/
def init (size : Nat) : SharedBuffer :=
  { capacity := size
    buffer := []
    mutex := 1
    empty := size
    full := 0
    produced_count := 0
    consumed_count := 0 }

/-- Embedding of `SharedBuffer.insert(item)`.  Gate 1 is `empty.acquire(timeout)`,
gate 2 is `mutex.acquire(timeout)`; on gate-2 timeout the already held
empty-slot permit is released (`self.empty.release()`).  The critical
section appends the item, bumps `produced_count`, and the `finally`
block releases the mutex and signals `full.release()`.  Result `none`
means the call never returns (`buffer.put` blocked on a full queue);
otherwise the returned boolean of the Python method is paired with the
post-state. -/
def insert (s : SharedBuffer) (item : Int) (g1 g2 : GateOutcome) :
    Option (Bool × SharedBuffer) :=
  if g1 = GateOutcome.timeout ∨ s.empty = 0 then
    -- empty.acquire timed out: return False, nothing changed
    some (false, s)
  else
    let s1 : SharedBuffer := { s with empty := s.empty - 1 }
    if g2 = GateOutcome.timeout ∨ s1.mutex = 0 then
      -- mutex.acquire timed out: release the empty slot we acquired
      some (false, { s1 with empty := s1.empty + 1 })
    else
      let s2 : SharedBuffer := { s1 with mutex := s1.mutex - 1 }
      if queueFull s2.capacity s2.buffer.length then
        -- buffer.put blocks forever on a full queue: the call hangs
        none
      else
        some (true,
          { s2 with
            buffer := s2.buffer ++ [item]
            produced_count := s2.produced_count + 1
            mutex := s2.mutex + 1
            full := s2.full + 1 })

/-- Embedding of `SharedBuffer.remove()`.  Gate 1 is `full.acquire(timeout)`, gate 2
is `mutex.acquire(timeout)`; on gate-2 timeout the already held
filled-slot permit is released (`self.full.release()`).  The critical
section pops the oldest item, bumps `consumed_count`, and the `finally`
block releases the mutex and signals `empty.release()`.  Result `none`
means the call never returns (`buffer.get` blocked on an empty queue). -/
def remove (s : SharedBuffer) (g1 g2 : GateOutcome) :
    Option (Option Int × SharedBuffer) :=
  if g1 = GateOutcome.timeout ∨ s.full = 0 then
    -- full.acquire timed out: return None, nothing changed
    some (none, s)
  else
    let s1 : SharedBuffer := { s with full := s.full - 1 }
    if g2 = GateOutcome.timeout ∨ s1.mutex = 0 then
      -- mutex.acquire timed out: release the full slot we acquired
      some (none, { s1 with full := s1.full + 1 })
    else
      let s2 : SharedBuffer := { s1 with mutex := s1.mutex - 1 }
      match s2.buffer with
      | [] =>
        -- buffer.get blocks forever on an empty queue: the call hangs
        none
      | x :: rest =>
        some (some x,
          { s2 with
            buffer := rest
            consumed_count := s2.consumed_count + 1
            mutex := s2.mutex + 1
            empty := s2.empty + 1 })

/-- Embedding of `SharedBuffer.get_size()`: `buffer.qsize()`. -/
def get_size (s : SharedBuffer) : Nat :=
  s.buffer.length

end SharedBuffer

/-- One completed call on a `SharedBuffer`: an `insert` of some item or
a `remove`, each with the scheduler's outcome for its two gates. -/
inductive Op where
  | ins (item : Int) (g1 g2 : GateOutcome)
  | rem (g1 g2 : GateOutcome)
deriving DecidableEq, Repr

/-- The state after one completed call, or `none` if the call blocks. -/
def SharedBuffer.step (s : SharedBuffer) : Op → Option SharedBuffer
  | Op.ins item g1 g2 => (s.insert item g1 g2).map Prod.snd
  | Op.rem g1 g2 => (s.remove g1 g2).map Prod.snd

/-- Run a sequence of calls; `none` as soon as one call blocks. -/
def SharedBuffer.run (s : SharedBuffer) : List Op → Option SharedBuffer
  | [] => some s
  | op :: ops =>
    match s.step op with
    | none => none
    | some s1 => s1.run ops

/-- The state invariant of `SharedBuffer` that holds after construction
and after every completed call: the mutex is free, the two slot
semaphores partition the capacity, the `full` counter equals the queue
length, and the statistics counters account for the queue contents. -/
def SharedBuffer.Inv (s : SharedBuffer) : Prop :=
  s.mutex = 1 ∧
  s.empty + s.full = s.capacity ∧
  s.full = s.buffer.length ∧
  s.produced_count = s.consumed_count + s.buffer.length

theorem SharedBuffer.inv_init (size : Nat) : (SharedBuffer.init size).Inv := by
  refine ⟨rfl, ?_, rfl, rfl⟩
  simp [SharedBuffer.init]

theorem SharedBuffer.capacity_step {s s1 : SharedBuffer} {op : Op}
    (h : s.step op = some s1) : s1.capacity = s.capacity := by
  cases op with
  | ins item g1 g2 =>
    simp only [SharedBuffer.step, SharedBuffer.insert] at h
    split at h
    · simp only [Option.map_some'] at h
      cases h; rfl
    · split at h
      · simp only [Option.map_some'] at h
        cases h; rfl
      · split at h
        · simp at h
        · simp only [Option.map_some'] at h
          cases h; rfl
  | rem g1 g2 =>
    simp only [SharedBuffer.step, SharedBuffer.remove] at h
    split at h
    · simp only [Option.map_some'] at h
      cases h; rfl
    · split at h
      · simp only [Option.map_some'] at h
        cases h; rfl
      · split at h
        · simp at h
        · simp only [Option.map_some'] at h
          cases h; rfl

theorem SharedBuffer.inv_step {s s1 : SharedBuffer} {op : Op}
    (hs : s.Inv) (h : s.step op = some s1) : s1.Inv := by
  obtain ⟨hm, he, hf, hc⟩ := hs
  cases op with
  | ins item g1 g2 =>
    simp only [SharedBuffer.step, SharedBuffer.insert] at h
    split at h
    · simp only [Option.map_some'] at h
      cases h; exact ⟨hm, he, hf, hc⟩
    · rename_i hg1
      push_neg at hg1
      obtain ⟨-, hge⟩ := hg1
      split at h
      · simp only [Option.map_some'] at h
        cases h
        refine ⟨hm, ?_, hf, hc⟩
        show s.empty - 1 + 1 + s.full = s.capacity
        omega
      · split at h
        · simp at h
        · simp only [Option.map_some'] at h
          cases h
          refine ⟨?_, ?_, ?_, ?_⟩
          · show s.mutex - 1 + 1 = 1
            omega
          · show s.empty - 1 + (s.full + 1) = s.capacity
            omega
          · show s.full + 1 = (s.buffer ++ [item]).length
            rw [List.length_append]
            simp [hf]
          · show s.produced_count + 1 = s.consumed_count + (s.buffer ++ [item]).length
            rw [List.length_append]
            simp only [List.length_cons, List.length_nil]
            omega
  | rem g1 g2 =>
    simp only [SharedBuffer.step, SharedBuffer.remove] at h
    split at h
    · simp only [Option.map_some'] at h
      cases h; exact ⟨hm, he, hf, hc⟩
    · rename_i hg1
      push_neg at hg1
      obtain ⟨-, hgf⟩ := hg1
      split at h
      · simp only [Option.map_some'] at h
        cases h
        refine ⟨hm, ?_, ?_, hc⟩
        · show s.empty + (s.full - 1 + 1) = s.capacity
          omega
        · show s.full - 1 + 1 = s.buffer.length
          omega
      · split at h
        · simp at h
        · rename_i x rest hbuf
          simp only [Option.map_some'] at h
          cases h
          have hlen : s.buffer.length = rest.length + 1 := by
            rw [hbuf]; simp
          refine ⟨?_, ?_, ?_, ?_⟩
          · show s.mutex - 1 + 1 = 1
            omega
          · show s.empty + 1 + (s.full - 1) = s.capacity
            omega
          · show s.full - 1 = rest.length
            omega
          · show s.produced_count = s.consumed_count + 1 + rest.length
            omega

theorem SharedBuffer.inv_run {s s1 : SharedBuffer} {ops : List Op}
    (hs : s.Inv) (h : s.run ops = some s1) : s1.Inv := by
  induction ops generalizing s with
  | nil =>
    simp only [SharedBuffer.run] at h
    cases h; exact hs
  | cons op ops ih =>
    simp only [SharedBuffer.run] at h
    split at h
    · exact absurd h (by simp)
    · rename_i s2 hstep
      exact ih (SharedBuffer.inv_step hs hstep) h

theorem SharedBuffer.capacity_run {s s1 : SharedBuffer} {ops : List Op}
    (h : s.run ops = some s1) : s1.capacity = s.capacity := by
  induction ops generalizing s with
  | nil =>
    simp only [SharedBuffer.run] at h
    cases h; rfl
  | cons op ops ih =>
    simp only [SharedBuffer.run] at h
    split at h
    · exact absurd h (by simp)
    · rename_i s2 hstep
      exact (ih h).trans (SharedBuffer.capacity_step hstep)

/-- Run calls, also collecting the item returned by each `remove`. -/
def SharedBuffer.runLog (s : SharedBuffer) :
    List Op → Option (List (Option Int) × SharedBuffer)
  | [] => some ([], s)
  | Op.ins item g1 g2 :: ops =>
    (s.insert item g1 g2).bind fun r => r.2.runLog ops
  | Op.rem g1 g2 :: ops =>
    (s.remove g1 g2).bind fun r =>
      (r.2.runLog ops).map fun q => (r.1 :: q.1, q.2)

/-! ## The networked engine: `SharedBufferServer` -/

/-- A JSON value as it flows through the wire protocol (the fragment the
clients actually send).  `null` is Python's `None`. -/
inductive JVal where
  | null
  | str (s : String)
  | num (n : Int)
deriving DecidableEq, Repr

/-- Python `str()` of the value, as interpolated into the reply
messages (`str(None) = "None"`). -/
def JVal.pyStr : JVal → String
  | JVal.null => "None"
  | JVal.str s => s
  | JVal.num n => toString n

/-- A parsed request dictionary: `request.get(key)` yields `none` when
the key is absent. -/
structure Request where
  type : Option String
  id : Option JVal
  item : Option JVal
deriving DecidableEq, Repr

/-- A reply dictionary.  Fields that a given reply does not carry are
`none`. -/
structure Response where
  status : String
  message : String
  item : Option JVal
  buffer_size : Option Nat
deriving DecidableEq, Repr

/-- State of `SharedBufferServer`: the construction-time `buffer_size`
and the FIFO queue (`queue.Queue(maxsize=buffer_size)`). -/
structure SharedBufferServer where
  buffer_size : Nat
  buffer : List JVal
deriving DecidableEq, Repr

namespace SharedBufferServer

/-- Embedding of `SharedBufferServer.__init__(buffer_size)`: empty queue. -/
def init (buffer_size : Nat) : SharedBufferServer :=
  { buffer_size := buffer_size, buffer := [] }

/-- Embedding of `handle_producer`: under the lock, if the queue is full reply an
error without mutating; otherwise `put` the request's item (Python
`request.get('item')` is `None` when the field is missing, and that
`None` is enqueued like any value) and reply success with the new
size. -/
def handle_producer (st : SharedBufferServer) (req : Request) :
    Response × SharedBufferServer :=
  let item := req.item.getD JVal.null
  if queueFull st.buffer_size st.buffer.length then
    ({ status := "error"
       message := "Buffer is full. Try again later."
       item := none
       buffer_size := none }, st)
  else
    let buf := st.buffer ++ [item]
    ({ status := "success"
       message := "Item \"" ++ item.pyStr ++ "\" added to buffer"
       item := none
       buffer_size := some buf.length }, { st with buffer := buf })

/-- Embedding of `handle_consumer`: under the lock, if the queue is empty reply an
error without mutating; otherwise `get` the oldest item and reply
success with the item and the new size. -/
def handle_consumer (st : SharedBufferServer) (_req : Request) :
    Response × SharedBufferServer :=
  match st.buffer with
  | [] =>
    ({ status := "error"
       message := "Buffer is empty. No items to consume."
       item := none
       buffer_size := none }, st)
  | x :: rest =>
    ({ status := "success"
       message := "Item \"" ++ x.pyStr ++ "\" consumed"
       item := some x
       buffer_size := some rest.length }, { st with buffer := rest })

/-- Embedding of `handle_client`: dispatch on the request's `type` field; anything
other than `"producer"` or `"consumer"` (a missing field included) is
answered `Invalid client type` without touching the buffer. -/
def handle_client (st : SharedBufferServer) (req : Request) :
    Response × SharedBufferServer :=
  if req.type = some "producer" then
    handle_producer st req
  else if req.type = some "consumer" then
    handle_consumer st req
  else
    ({ status := "error"
       message := "Invalid client type"
       item := none
       buffer_size := none }, st)

/-- Handle a sequence of requests.  The server's single lock spans each
handler's capacity-check-and-mutate step, so any concurrent execution of
complete requests is equivalent to handling them in some sequential
order; this folds one such order. -/
def runRequests (st : SharedBufferServer) : List Request → SharedBufferServer
  | [] => st
  | r :: rs => runRequests (handle_client st r).2 rs

end SharedBufferServer

/-! ## The remote clients' retry loops -/

/-- Inner retry loop of `Producer.continuous_production` for one item:
`retries = 0`, then `while not success and retries < max_retries` call
`produce` and on failure increment `retries`.  The first argument gives
the result of each `produce` call (a network oracle indexed by a global
attempt counter); the `Nat` arguments are the remaining retry budget
`max_retries - retries` and the index of the next attempt.  Returns the
final `success` flag and the attempt index after this item. -/
def produceRetry (outcome : Nat → Bool) : Nat → Nat → Bool × Nat
  | 0, a => (false, a)
  | fuel + 1, a =>
    if outcome a then (true, a + 1)
    else produceRetry outcome fuel (a + 1)

/-- Embedding of `Producer.continuous_production`: for each item run the retry loop;
on exhaustion the item is skipped and the loop moves to the next item.
Returns the per-item success flags and the final attempt index. -/
def continuous_production (outcome : Nat → Bool) (max_retries : Nat) :
    List String → Nat → List Bool × Nat
  | [], a => ([], a)
  | _item :: items, a =>
    let r := produceRetry outcome max_retries a
    let rest := continuous_production outcome max_retries items r.2
    (r.1 :: rest.1, rest.2)

/-- Inner retry loop of `Consumer.continuous_consumption`:
`while item is None and retries < max_retries` call `consume`; returns
the item obtained (or `none` on exhaustion) and the next attempt
index. -/
def consumeRetry (oracle : Nat → Option JVal) : Nat → Nat → Option JVal × Nat
  | 0, a => (none, a)
  | fuel + 1, a =>
    match oracle a with
    | some it => (some it, a + 1)
    | none => consumeRetry oracle fuel (a + 1)

/-- Embedding of `Consumer.continuous_consumption`:
outer loop `while items_consumed < max_items`; when the inner retry loop
exhausts `max_retries` the whole consumption loop returns at once.  The
first `Nat` argument is `max_items - items_consumed`, the second the
next attempt index.  With `max_retries = 0` the inner loop never runs,
never returns, and the outer loop spins forever: that divergence is
`none`.  Otherwise the result is the number of items consumed and the
final attempt index. -/
def continuous_consumption (oracle : Nat → Option JVal) (max_retries : Nat) :
    Nat → Nat → Option (Nat × Nat)
  | 0, a => some (0, a)
  | rem + 1, a =>
    if max_retries = 0 then
      none
    else
      match consumeRetry oracle max_retries a with
      | (none, a1) => some (0, a1)
      | (some _, a1) =>
        match continuous_consumption oracle max_retries rem a1 with
        | none => none
        | some (c, a2) => some (c + 1, a2)

/-! ## Helper lemmas on the failure paths of `insert` and `remove` -/

/-- An `insert` that returns `False` leaves the buffer in exactly the
state it found it in: both timeout paths restore every semaphore. -/
theorem SharedBuffer.insert_fail {s s' : SharedBuffer} {item : Int}
    {g1 g2 : GateOutcome} (h : s.insert item g1 g2 = some (false, s')) :
    s' = s := by
  simp only [SharedBuffer.insert] at h
  split at h
  · simp only [Option.some.injEq, Prod.mk.injEq, true_and] at h
    exact h.symm
  · rename_i hg1
    push_neg at hg1
    split at h
    · simp only [Option.some.injEq, Prod.mk.injEq, true_and] at h
      have he : s.empty - 1 + 1 = s.empty := by omega
      rw [← h, he]
    · split at h
      · simp at h
      · simp at h

/-- A `remove` that returns `None` leaves the buffer in exactly the
state it found it in. -/
theorem SharedBuffer.remove_fail {s s' : SharedBuffer} {g1 g2 : GateOutcome}
    (h : s.remove g1 g2 = some (none, s')) : s' = s := by
  simp only [SharedBuffer.remove] at h
  split at h
  · simp only [Option.some.injEq, Prod.mk.injEq, true_and] at h
    exact h.symm
  · rename_i hg1
    push_neg at hg1
    split at h
    · simp only [Option.some.injEq, Prod.mk.injEq, true_and] at h
      have hf : s.full - 1 + 1 = s.full := by omega
      rw [← h, hf]
    · split at h
      · simp at h
      · simp at h

/-- A timeout at either gate makes `insert` return `False` with the
state fully restored. -/
theorem SharedBuffer.insert_timeout {s : SharedBuffer} {item : Int}
    {g1 g2 : GateOutcome}
    (h : g1 = GateOutcome.timeout ∨ g2 = GateOutcome.timeout) :
    s.insert item g1 g2 = some (false, s) := by
  rcases h with h | h
  · simp [SharedBuffer.insert, h]
  · by_cases h1 : g1 = GateOutcome.timeout ∨ s.empty = 0
    · simp [SharedBuffer.insert, h1]
    · push_neg at h1
      have he : s.empty - 1 + 1 = s.empty := by omega
      simp [SharedBuffer.insert, h1.1, h1.2, h, he]

/-- A timeout at either gate makes `remove` return `None` with the
state fully restored. -/
theorem SharedBuffer.remove_timeout {s : SharedBuffer} {g1 g2 : GateOutcome}
    (h : g1 = GateOutcome.timeout ∨ g2 = GateOutcome.timeout) :
    s.remove g1 g2 = some (none, s) := by
  rcases h with h | h
  · simp [SharedBuffer.remove, h]
  · by_cases h1 : g1 = GateOutcome.timeout ∨ s.full = 0
    · simp [SharedBuffer.remove, h1]
    · push_neg at h1
      have hf : s.full - 1 + 1 = s.full := by omega
      simp [SharedBuffer.remove, h1.1, h1.2, h, hf]

/-! ## Claims about the local engine -/

/-- C1: Permit conservation.  For every sequence of completed `insert`
and `remove` calls (successful or timed out at either gate) on a buffer
constructed with capacity `C`, the empty-slot permits plus the
filled-slot permits equal `C` after each completed call: no path out of
`insert` or `remove` leaks or duplicates a permit. -/
theorem claim_C1_permit_conservation (C : Nat) (ops : List Op)
    (s : SharedBuffer) (h : (SharedBuffer.init C).run ops = some s) :
    s.empty + s.full = C := by
  have hinv := SharedBuffer.inv_run (SharedBuffer.inv_init C) h
  have hcap : s.capacity = C := SharedBuffer.capacity_run h
  have h2 := hinv.2.1
  rw [hcap] at h2
  exact h2

theorem claim_C1_permit_conservation_witness :
    (SharedBuffer.mk 2 [] 1 2 0 1 1).empty
      + (SharedBuffer.mk 2 [] 1 2 0 1 1).full = 2 :=
  claim_C1_permit_conservation 2
    [Op.ins 5 GateOutcome.ok GateOutcome.ok,
     Op.rem GateOutcome.ok GateOutcome.ok,
     Op.ins 7 GateOutcome.ok GateOutcome.timeout]
    (SharedBuffer.mk 2 [] 1 2 0 1 1) (by decide)

/-- C2: Timeout atomicity.  A timed-out `insert` returns `False` and a
timed-out `remove` returns `None` — at either gate — and every failing
call leaves the whole buffer state (contents, counters, permits)
exactly as it found it, the partially-acquired permit having been
released before returning. -/
theorem claim_C2_timeout_atomicity (s s' : SharedBuffer) (item : Int)
    (g1 g2 : GateOutcome) :
    (s.insert item g1 g2 = some (false, s') → s' = s) ∧
    (s.remove g1 g2 = some (none, s') → s' = s) ∧
    ((g1 = GateOutcome.timeout ∨ g2 = GateOutcome.timeout) →
      s.insert item g1 g2 = some (false, s) ∧
      s.remove g1 g2 = some (none, s)) :=
  ⟨SharedBuffer.insert_fail, SharedBuffer.remove_fail,
   fun h => ⟨SharedBuffer.insert_timeout h, SharedBuffer.remove_timeout h⟩⟩

theorem claim_C2_timeout_atomicity_witness :
    (SharedBuffer.mk 3 [9] 1 2 1 1 0).insert 5 GateOutcome.ok GateOutcome.timeout
      = some (false, SharedBuffer.mk 3 [9] 1 2 1 1 0) ∧
    (SharedBuffer.mk 3 [9] 1 2 1 1 0).remove GateOutcome.ok GateOutcome.timeout
      = some (none, SharedBuffer.mk 3 [9] 1 2 1 1 0) :=
  (claim_C2_timeout_atomicity (SharedBuffer.mk 3 [9] 1 2 1 1 0)
    (SharedBuffer.mk 3 [9] 1 2 1 1 0) 5 GateOutcome.ok GateOutcome.timeout).2.2
    (Or.inr rfl)

/-- C9: Counter-size coherence.  After any sequence of completed calls
from construction, `produced_count - consumed_count` equals the buffer
size (stated additively over `Nat`), `consumed_count` never exceeds
`produced_count`, and timed-out calls leave both counters unchanged. -/
theorem claim_C9_counter_coherence (C : Nat) (ops : List Op)
    (s : SharedBuffer) (h : (SharedBuffer.init C).run ops = some s) :
    s.produced_count = s.consumed_count + s.get_size ∧
    s.consumed_count ≤ s.produced_count ∧
    (∀ (item : Int) (g1 g2 : GateOutcome) (s' : SharedBuffer),
      s.insert item g1 g2 = some (false, s') →
        s'.produced_count = s.produced_count ∧
        s'.consumed_count = s.consumed_count) ∧
    (∀ (g1 g2 : GateOutcome) (s' : SharedBuffer),
      s.remove g1 g2 = some (none, s') →
        s'.produced_count = s.produced_count ∧
        s'.consumed_count = s.consumed_count) := by
  have hinv := SharedBuffer.inv_run (SharedBuffer.inv_init C) h
  refine ⟨hinv.2.2.2, ?_, ?_, ?_⟩
  · have h3 := hinv.2.2.2
    omega
  · intro item g1 g2 s' hf
    rw [SharedBuffer.insert_fail hf]
    exact ⟨rfl, rfl⟩
  · intro g1 g2 s' hf
    rw [SharedBuffer.remove_fail hf]
    exact ⟨rfl, rfl⟩

theorem claim_C9_counter_coherence_witness :
    (SharedBuffer.mk 1 [5] 1 0 1 1 0).produced_count
      = (SharedBuffer.mk 1 [5] 1 0 1 1 0).consumed_count
        + (SharedBuffer.mk 1 [5] 1 0 1 1 0).get_size :=
  (claim_C9_counter_coherence 1 [Op.ins 5 GateOutcome.ok GateOutcome.ok]
    (SharedBuffer.mk 1 [5] 1 0 1 1 0) (by decide)).1

/-! ## Bound lemmas for the networked server -/

theorem SharedBufferServer.step_bound (st : SharedBufferServer)
    (req : Request) (hC : 1 ≤ st.buffer_size)
    (h : st.buffer.length ≤ st.buffer_size) :
    (SharedBufferServer.handle_client st req).2.buffer_size = st.buffer_size ∧
    (SharedBufferServer.handle_client st req).2.buffer.length ≤ st.buffer_size := by
  unfold SharedBufferServer.handle_client
  split_ifs with h1 h2
  · unfold SharedBufferServer.handle_producer
    split_ifs with hfull
    · exact ⟨rfl, h⟩
    · refine ⟨rfl, ?_⟩
      simp only [List.length_append, List.length_cons, List.length_nil]
      simp only [queueFull, Bool.and_eq_true, decide_eq_true_eq] at hfull
      omega
  · unfold SharedBufferServer.handle_consumer
    cases hb : st.buffer with
    | nil => exact ⟨rfl, h⟩
    | cons x rest =>
      refine ⟨rfl, ?_⟩
      have hlen : st.buffer.length = rest.length + 1 := by
        rw [hb]; rfl
      show rest.length ≤ st.buffer_size
      omega
  · exact ⟨rfl, h⟩

theorem SharedBufferServer.runRequests_bound (st : SharedBufferServer)
    (reqs : List Request) (hC : 1 ≤ st.buffer_size)
    (h : st.buffer.length ≤ st.buffer_size) :
    (st.runRequests reqs).buffer_size = st.buffer_size ∧
    (st.runRequests reqs).buffer.length ≤ st.buffer_size := by
  induction reqs generalizing st with
  | nil => exact ⟨rfl, h⟩
  | cons r rs ih =>
    obtain ⟨h1, h2⟩ := SharedBufferServer.step_bound st r hC h
    obtain ⟨h3, h4⟩ :=
      ih (SharedBufferServer.handle_client st r).2 (by omega) (by omega)
    unfold SharedBufferServer.runRequests
    exact ⟨by omega, by omega⟩

/-- C3: Capacity invariant.  Every state reachable by completed
`insert`/`remove` calls on the local engine, or by `produce`/`consume`
requests handled by the server, has `0 ≤ size ≤ C` — for the server
with `1 ≤ C`, since the underlying queue treats `maxsize = 0` as
unbounded rather than as capacity zero. -/
theorem claim_C3_capacity_invariant :
    (∀ (C : Nat) (ops : List Op) (s : SharedBuffer),
      (SharedBuffer.init C).run ops = some s →
        0 ≤ s.get_size ∧ s.get_size ≤ C) ∧
    (∀ (C : Nat) (reqs : List Request), 1 ≤ C →
      0 ≤ ((SharedBufferServer.init C).runRequests reqs).buffer.length ∧
      ((SharedBufferServer.init C).runRequests reqs).buffer.length ≤ C) := by
  constructor
  · intro C ops s h
    have hinv := SharedBuffer.inv_run (SharedBuffer.inv_init C) h
    have hcap : s.capacity = C := SharedBuffer.capacity_run h
    obtain ⟨-, he, hf, -⟩ := hinv
    refine ⟨Nat.zero_le _, ?_⟩
    show s.buffer.length ≤ C
    omega
  · intro C reqs hC
    have hb := SharedBufferServer.runRequests_bound
      (SharedBufferServer.init C) reqs hC (Nat.zero_le _)
    exact ⟨Nat.zero_le _, hb.2⟩

theorem claim_C3_capacity_invariant_witness :
    (0 ≤ (SharedBuffer.mk 2 [4] 1 1 1 1 0).get_size ∧
      (SharedBuffer.mk 2 [4] 1 1 1 1 0).get_size ≤ 2) ∧
    (0 ≤ ((SharedBufferServer.init 1).runRequests
        [Request.mk (some "producer") none (some (JVal.num 7))]).buffer.length ∧
      ((SharedBufferServer.init 1).runRequests
        [Request.mk (some "producer") none (some (JVal.num 7))]).buffer.length ≤ 1) :=
  ⟨claim_C3_capacity_invariant.1 2 [Op.ins 4 GateOutcome.ok GateOutcome.ok]
      (SharedBuffer.mk 2 [4] 1 1 1 1 0) (by decide),
   claim_C3_capacity_invariant.2 1
      [Request.mk (some "producer") none (some (JVal.num 7))] (by decide)⟩

/-- C4: FIFO order.  Every successful `remove` returns the oldest item
of the buffer (its head) and keeps the rest in order; concretely,
inserting 1, 2, 3 into a fresh buffer of capacity 3 and removing three
times yields 1, 2, 3 in that order. -/
theorem claim_C4_fifo_order :
    (∀ (s : SharedBuffer) (g1 g2 : GateOutcome) (x : Int)
        (s' : SharedBuffer),
      s.remove g1 g2 = some (some x, s') →
        s.buffer.head? = some x ∧ s'.buffer = s.buffer.tail) ∧
    (SharedBuffer.init 3).runLog
      [Op.ins 1 GateOutcome.ok GateOutcome.ok,
       Op.ins 2 GateOutcome.ok GateOutcome.ok,
       Op.ins 3 GateOutcome.ok GateOutcome.ok,
       Op.rem GateOutcome.ok GateOutcome.ok,
       Op.rem GateOutcome.ok GateOutcome.ok,
       Op.rem GateOutcome.ok GateOutcome.ok]
      = some ([some 1, some 2, some 3], SharedBuffer.mk 3 [] 1 3 0 3 3) := by
  constructor
  · intro s g1 g2 x s' h
    simp only [SharedBuffer.remove] at h
    split at h
    · simp at h
    · split at h
      · simp at h
      · split at h
        · simp at h
        · rename_i y rest hbuf
          simp only [Option.some.injEq, Prod.mk.injEq] at h
          obtain ⟨hx, hs⟩ := h
          cases hx
          constructor
          · rw [hbuf]
            rfl
          · rw [← hs, hbuf]
            rfl
  · decide

theorem claim_C4_fifo_order_witness :
    (SharedBuffer.mk 1 [9] 1 0 1 1 0).buffer.head? = some 9 ∧
    (SharedBuffer.mk 1 [] 1 1 0 1 1).buffer
      = (SharedBuffer.mk 1 [9] 1 0 1 1 0).buffer.tail :=
  claim_C4_fifo_order.1 (SharedBuffer.mk 1 [9] 1 0 1 1 0)
    GateOutcome.ok GateOutcome.ok 9 (SharedBuffer.mk 1 [] 1 1 0 1 1)
    (by decide)

/-! ## Claims about the networked engine -/

/-- C5: Fail-fast capacity contract of the networked service.  A
`produce` against a full buffer is answered `error` with a message
beginning `Buffer is full` and the buffer unchanged; against a non-full
buffer it enqueues the item and is answered `success` with the new
size; a `consume` against an empty buffer is answered `error` with a
message beginning `Buffer is empty` and the buffer unchanged; against a
non-empty buffer it dequeues the oldest item and is answered `success`
carrying that item and the new size. -/
theorem claim_C5_failfast (st : SharedBufferServer) (req : Request) :
    (queueFull st.buffer_size st.buffer.length = true →
      SharedBufferServer.handle_producer st req =
        ({ status := "error", message := "Buffer is full. Try again later.",
           item := none, buffer_size := none }, st) ∧
      List.isPrefixOf "Buffer is full".data
        (SharedBufferServer.handle_producer st req).1.message.data = true) ∧
    (queueFull st.buffer_size st.buffer.length = false →
      SharedBufferServer.handle_producer st req =
        ({ status := "success",
           message := "Item \"" ++ (req.item.getD JVal.null).pyStr
             ++ "\" added to buffer",
           item := none, buffer_size := some (st.buffer.length + 1) },
         { buffer_size := st.buffer_size,
           buffer := st.buffer ++ [req.item.getD JVal.null] })) ∧
    (st.buffer = [] →
      SharedBufferServer.handle_consumer st req =
        ({ status := "error", message := "Buffer is empty. No items to consume.",
           item := none, buffer_size := none }, st) ∧
      List.isPrefixOf "Buffer is empty".data
        (SharedBufferServer.handle_consumer st req).1.message.data = true) ∧
    (∀ (x : JVal) (rest : List JVal), st.buffer = x :: rest →
      SharedBufferServer.handle_consumer st req =
        ({ status := "success", message := "Item \"" ++ x.pyStr ++ "\" consumed",
           item := some x, buffer_size := some rest.length },
         { buffer_size := st.buffer_size, buffer := rest })) := by
  refine ⟨?_, ?_, ?_, ?_⟩
  · intro hfull
    unfold SharedBufferServer.handle_producer
    rw [if_pos hfull]
    refine ⟨rfl, ?_⟩
    show List.isPrefixOf "Buffer is full".data
      "Buffer is full. Try again later.".data = true
    decide
  · intro hnfull
    unfold SharedBufferServer.handle_producer
    rw [hnfull, if_neg (by simp)]
    simp [List.length_append]
  · intro hb
    unfold SharedBufferServer.handle_consumer
    rw [hb]
    refine ⟨rfl, ?_⟩
    show List.isPrefixOf "Buffer is empty".data
      "Buffer is empty. No items to consume.".data = true
    decide
  · intro x rest hb
    unfold SharedBufferServer.handle_consumer
    rw [hb]

theorem claim_C5_failfast_witness :
    (SharedBufferServer.handle_producer
        (SharedBufferServer.mk 1 [JVal.str "a"])
        (Request.mk (some "producer") none (some (JVal.str "b"))) =
      ({ status := "error", message := "Buffer is full. Try again later.",
         item := none, buffer_size := none },
       SharedBufferServer.mk 1 [JVal.str "a"]) ∧
      List.isPrefixOf "Buffer is full".data
        (SharedBufferServer.handle_producer
          (SharedBufferServer.mk 1 [JVal.str "a"])
          (Request.mk (some "producer") none
            (some (JVal.str "b")))).1.message.data = true) ∧
    (SharedBufferServer.handle_consumer (SharedBufferServer.init 1)
        (Request.mk (some "consumer") none none) =
      ({ status := "error", message := "Buffer is empty. No items to consume.",
         item := none, buffer_size := none }, SharedBufferServer.init 1) ∧
      List.isPrefixOf "Buffer is empty".data
        (SharedBufferServer.handle_consumer (SharedBufferServer.init 1)
          (Request.mk (some "consumer") none none)).1.message.data = true) :=
  ⟨(claim_C5_failfast (SharedBufferServer.mk 1 [JVal.str "a"])
      (Request.mk (some "producer") none (some (JVal.str "b")))).1 rfl,
   (claim_C5_failfast (SharedBufferServer.init 1)
      (Request.mk (some "consumer") none none)).2.2.1 rfl⟩

/-- C7: Unknown request type.  A request whose `type` field is neither
`"producer"` nor `"consumer"` (a missing field included, since
`request.get('type')` is then `None`) is answered
`{status: "error", message: "Invalid client type"}` and the buffer is
untouched. -/
theorem claim_C7_invalid_type (st : SharedBufferServer) (req : Request)
    (h1 : req.type ≠ some "producer") (h2 : req.type ≠ some "consumer") :
    SharedBufferServer.handle_client st req =
      ({ status := "error", message := "Invalid client type",
         item := none, buffer_size := none }, st) := by
  unfold SharedBufferServer.handle_client
  rw [if_neg h1, if_neg h2]

theorem claim_C7_invalid_type_witness :
    SharedBufferServer.handle_client (SharedBufferServer.mk 3 [JVal.num 1])
      (Request.mk none none none) =
      ({ status := "error", message := "Invalid client type",
         item := none, buffer_size := none },
       SharedBufferServer.mk 3 [JVal.num 1]) :=
  claim_C7_invalid_type (SharedBufferServer.mk 3 [JVal.num 1])
    (Request.mk none none none) (by decide) (by decide)

/-- C8: No cross-talk.  The server's single lock spans each handler's
capacity-check-and-mutate step, so two produce requests handled by
concurrent connections execute in one of the two sequential orders;
against an empty capacity-2 buffer both orders end with buffer size
exactly 2. -/
theorem claim_C8_no_crosstalk (r1 r2 : Request)
    (h1 : r1.type = some "producer") (h2 : r2.type = some "producer") :
    ((SharedBufferServer.init 2).runRequests [r1, r2]).buffer.length = 2 ∧
    ((SharedBufferServer.init 2).runRequests [r2, r1]).buffer.length = 2 := by
  have key : ∀ (r : Request) (st : SharedBufferServer),
      r.type = some "producer" → st.buffer_size = 2 → st.buffer.length < 2 →
      (SharedBufferServer.handle_client st r).2.buffer_size = 2 ∧
      (SharedBufferServer.handle_client st r).2.buffer.length
        = st.buffer.length + 1 := by
    intro r st hr hbs hlt
    unfold SharedBufferServer.handle_client SharedBufferServer.handle_producer
    rw [if_pos hr]
    have hnf : queueFull st.buffer_size st.buffer.length = false := by
      simp only [queueFull, Bool.and_eq_true, decide_eq_true_eq,
        Bool.and_eq_false_iff, decide_eq_false_iff_not]
      omega
    rw [hnf, if_neg (by simp)]
    exact ⟨hbs, by simp⟩
  have hrun : ∀ (a b : Request),
      (SharedBufferServer.init 2).runRequests [a, b]
        = (SharedBufferServer.handle_client
            (SharedBufferServer.handle_client
              (SharedBufferServer.init 2) a).2 b).2 := fun a b => rfl
  have h0 : (SharedBufferServer.init 2).buffer.length = 0 := rfl
  have hbs0 : (SharedBufferServer.init 2).buffer_size = 2 := rfl
  constructor
  · rw [hrun r1 r2]
    obtain ⟨ha1, ha2⟩ := key r1 (SharedBufferServer.init 2) h1 hbs0 (by omega)
    obtain ⟨hb1, hb2⟩ := key r2 _ h2 ha1 (by omega)
    omega
  · rw [hrun r2 r1]
    obtain ⟨ha1, ha2⟩ := key r2 (SharedBufferServer.init 2) h2 hbs0 (by omega)
    obtain ⟨hb1, hb2⟩ := key r1 _ h1 ha1 (by omega)
    omega

theorem claim_C8_no_crosstalk_witness :
    ((SharedBufferServer.init 2).runRequests
      [Request.mk (some "producer") none (some (JVal.str "x")),
       Request.mk (some "producer") none (some (JVal.str "y"))]).buffer.length
      = 2 ∧
    ((SharedBufferServer.init 2).runRequests
      [Request.mk (some "producer") none (some (JVal.str "y")),
       Request.mk (some "producer") none (some (JVal.str "x"))]).buffer.length
      = 2 :=
  claim_C8_no_crosstalk
    (Request.mk (some "producer") none (some (JVal.str "x")))
    (Request.mk (some "producer") none (some (JVal.str "y"))) rfl rfl

/-- C10: Missing payload accepted.  A producer request with no `item`
field, handled against a non-full buffer, is not rejected: the null
value is enqueued as an ordinary item and the reply is `success`; a
later successful consume then returns that null item. -/
theorem claim_C10_missing_item (st : SharedBufferServer) (req req2 : Request)
    (hty : req.type = some "producer") (hitem : req.item = none)
    (hnf : queueFull st.buffer_size st.buffer.length = false) :
    (SharedBufferServer.handle_client st req).1.status = "success" ∧
    (SharedBufferServer.handle_client st req).2.buffer
      = st.buffer ++ [JVal.null] ∧
    (st.buffer = [] →
      (SharedBufferServer.handle_consumer
        (SharedBufferServer.handle_client st req).2 req2).1.status
        = "success" ∧
      (SharedBufferServer.handle_consumer
        (SharedBufferServer.handle_client st req).2 req2).1.item
        = some JVal.null) := by
  unfold SharedBufferServer.handle_client SharedBufferServer.handle_producer
  rw [if_pos hty, hitem, hnf, if_neg (by simp)]
  refine ⟨rfl, rfl, ?_⟩
  intro hbuf
  unfold SharedBufferServer.handle_consumer
  rw [hbuf]
  exact ⟨rfl, rfl⟩

theorem claim_C10_missing_item_witness :
    (SharedBufferServer.handle_client (SharedBufferServer.init 5)
      (Request.mk (some "producer") none none)).1.status = "success" ∧
    (SharedBufferServer.handle_client (SharedBufferServer.init 5)
      (Request.mk (some "producer") none none)).2.buffer
      = (SharedBufferServer.init 5).buffer ++ [JVal.null] ∧
    ((SharedBufferServer.init 5).buffer = [] →
      (SharedBufferServer.handle_consumer
        (SharedBufferServer.handle_client (SharedBufferServer.init 5)
          (Request.mk (some "producer") none none)).2
        (Request.mk (some "consumer") none none)).1.status = "success" ∧
      (SharedBufferServer.handle_consumer
        (SharedBufferServer.handle_client (SharedBufferServer.init 5)
          (Request.mk (some "producer") none none)).2
        (Request.mk (some "consumer") none none)).1.item
        = some JVal.null) :=
  claim_C10_missing_item (SharedBufferServer.init 5)
    (Request.mk (some "producer") none none)
    (Request.mk (some "consumer") none none) rfl rfl rfl

/-! ## Claim about the remote clients' retry loops -/

theorem produceRetry_allFail (fuel a : Nat) :
    produceRetry (fun _ => false) fuel a = (false, a + fuel) := by
  induction fuel generalizing a with
  | zero => rfl
  | succ n ih =>
    show produceRetry (fun _ => false) n (a + 1) = (false, a + (n + 1))
    rw [ih]
    congr 1
    omega

theorem consumeRetry_allFail (fuel a : Nat) :
    consumeRetry (fun _ => none) fuel a = (none, a + fuel) := by
  induction fuel generalizing a with
  | zero => rfl
  | succ n ih =>
    show consumeRetry (fun _ => none) n (a + 1) = (none, a + (n + 1))
    rw [ih]
    congr 1
    omega

/-- C6: Retry exhaustion.  Against permanently failing requests, a
client with `max_retries = N` makes exactly `N` attempts per operation
and then abandons it: the producer marks the item failed and moves to
the next item (every item is visited, each costing `N` attempts), while
the consumer stops the whole consumption loop after its `N` failed
attempts, consuming nothing and attempting nothing further (for the
consumer, `N ≥ 1`: with `max_retries = 0` its outer loop never reaches
the stopping branch). -/
theorem claim_C6_retry_exhaustion (N : Nat) :
    (∀ (items : List String) (a : Nat),
      continuous_production (fun _ => false) N items a
        = (List.replicate items.length false, a + items.length * N)) ∧
    (∀ (m a : Nat), 0 < N →
      continuous_consumption (fun _ => none) N (m + 1) a = some (0, a + N)) := by
  constructor
  · intro items
    induction items with
    | nil =>
      intro a
      show ([], a) = (List.replicate 0 false, a + 0 * N)
      simp
    | cons it items ih =>
      intro a
      show (let r := produceRetry (fun _ => false) N a
            let rest := continuous_production (fun _ => false) N items r.2
            (r.1 :: rest.1, rest.2))
        = (List.replicate (it :: items).length false, a + (it :: items).length * N)
      rw [produceRetry_allFail]
      dsimp only
      rw [ih]
      simp only [List.length_cons, List.replicate_succ]
      refine congrArg₂ Prod.mk rfl ?_
      ring
  · intro m a hN
    have hN0 : N ≠ 0 := Nat.pos_iff_ne_zero.mp hN
    show (if N = 0 then none
          else match consumeRetry (fun _ => none) N a with
          | (none, a1) => some (0, a1)
          | (some _, a1) =>
            match continuous_consumption (fun _ => none) N m a1 with
            | none => none
            | some (c, a2) => some (c + 1, a2))
        = some (0, a + N)
    rw [if_neg hN0, consumeRetry_allFail]

theorem claim_C6_retry_exhaustion_witness :
    continuous_production (fun _ => false) 5 ["Item-1", "Item-2"] 0
      = (List.replicate 2 false, 0 + 2 * 5) ∧
    continuous_consumption (fun _ => none) 5 3 0 = some (0, 0 + 5) :=
  ⟨(claim_C6_retry_exhaustion 5).1 ["Item-1", "Item-2"] 0,
   (claim_C6_retry_exhaustion 5).2 2 0 (by decide)⟩

end BufferRepo
